import Mathlib

/-!
Shallow embedding of the FastAPI user/blog-post service
(`main.py`, `models/user.py`, `models/blog_post.py`).

Modelling conventions:
* UUIDs are modelled as `Nat`; `uuid4` freshness is passed in explicitly as a
  `freshId` argument (hypotheses state it is not already a key of the store).
* `datetime` values are modelled as `Nat` timestamps.  Every call the Python
  code makes to `datetime.now(timezone.utc)` / `utc_now()` is one explicit
  clock-reading argument.  In particular `BlogPostBase` declares
  `created_at: datetime = Field(default_factory=utc_now)` and
  `updated_at: datetime = Field(default_factory=utc_now)`: constructing a
  record runs the factory twice, in field order, so the constructor here takes
  two readings `t1` (for `created_at`) and `t2` (for `updated_at`).
* The in-memory stores `fake_db` / `fake_blog_db` are Python dicts; a dict is
  modelled as an association list in insertion order, where assigning to an
  existing key replaces the value in place and assigning to a new key appends.
* Pydantic's tri-state update fields (absent / present-with-null /
  present-with-value) are modelled by the `Patch` type.
* `SecretStr` is modelled as the underlying `String` (the code unwraps it with
  `get_secret_value` at the single point of storage).
* HTTP status codes are modelled as `Nat`.  Both POST routes are declared with
  `status_code=status.HTTP_201_CREATED` and their handlers return a model
  object without overriding the response status, so under FastAPI semantics
  every success response of those routes carries status 201.
-/

/-- `UserRole` enum from `models/user.py`: `USER` or `ADMIN`. -/
inductive UserRole where
  | USER
  | ADMIN
deriving DecidableEq

/-- Stored user record (`UserBase` in `models/user.py`).  Field defaults:
`role=USER`, `is_active=True`; `first_name`/`last_name` optional. -/
structure UserBase where
  id : Nat
  email : String
  password : String
  role : UserRole
  is_active : Bool
  first_name : Option String
  last_name : Option String
deriving DecidableEq

/-- `UserCreate` payload: email, password and the optional names.
`role` and `is_active` are not part of the create payload. -/
structure UserCreate where
  email : String
  password : String
  first_name : Option String
  last_name : Option String
deriving DecidableEq

/-- `UserRead` response model (`models/user.py`): the outward representation of
a user.  By construction it has no password field. -/
structure UserRead where
  id : Nat
  email : String
  role : UserRole
  is_active : Bool
  first_name : Option String
  last_name : Option String
deriving DecidableEq

/-- FastAPI's `response_model=UserRead` with `from_attributes=True`: copy the
equally named attributes of the stored record, dropping the rest (the
password). -/
def userRead (u : UserBase) : UserRead :=
  ⟨u.id, u.email, u.role, u.is_active, u.first_name, u.last_name⟩

/-- Stored blog-post record (`BlogPostBase` in `models/blog_post.py`). -/
structure BlogPostBase where
  id : Nat
  title : String
  slug : String
  excerpt : Option String
  content : String
  is_published : Bool
  author_id : Nat
  created_at : Nat
  updated_at : Nat
deriving DecidableEq

/-- `BlogPostCreate` payload (`is_published` defaults to `False` when the
payload omits it; the parsed payload always carries a boolean). -/
structure BlogPostCreate where
  title : String
  slug : String
  excerpt : Option String
  content : String
  is_published : Bool
  author_id : Nat
deriving DecidableEq

/-- `BlogPostRead` response model: every stored field is exposed. -/
structure BlogPostRead where
  id : Nat
  title : String
  slug : String
  excerpt : Option String
  content : String
  is_published : Bool
  author_id : Nat
  created_at : Nat
  updated_at : Nat
deriving DecidableEq

/-- `response_model=BlogPostRead` conversion (`from_attributes=True`). -/
def blogPostRead (p : BlogPostBase) : BlogPostRead :=
  ⟨p.id, p.title, p.slug, p.excerpt, p.content, p.is_published, p.author_id,
    p.created_at, p.updated_at⟩

/-- A Python dict keyed by UUID, in insertion order. -/
abbrev Store (α : Type) := List (Nat × α)

/-- `d[k] = v`: replace in place when the key is present, append otherwise. -/
def dbPut (db : Store α) (k : Nat) (v : α) : Store α :=
  match db with
  | [] => [(k, v)]
  | (k', v') :: rest => if k' = k then (k, v) :: rest else (k', v') :: dbPut rest k v

/-- `d.get(k)`. -/
def dbGet (db : Store α) (k : Nat) : Option α :=
  match db with
  | [] => none
  | (k', v') :: rest => if k' = k then some v' else dbGet rest k

/-- `list(d.values())`: the stored records in insertion order. -/
def dbValues (db : Store α) : List α := db.map Prod.snd

/-- Result of a create endpoint: HTTP status, response body, resulting store. -/
structure CreateResult (α : Type) where
  status : Nat
  body : α
  db : Store α
deriving DecidableEq

/-- `create_user` (`main.py`).  Scans `fake_db.values()` for the first user
with the payload's email; if found, returns it and leaves the store untouched;
otherwise mints a new record with defaults `role=USER`, `is_active=True` under
the fresh id.  The route is declared with `status_code=201` and the handler
never overrides the response status, so both branches answer 201. -/
def create_user (db : Store UserBase) (user : UserCreate) (freshId : Nat) :
    CreateResult UserBase :=
  match (dbValues db).find? (fun u => u.email == user.email) with
  | some existing => ⟨201, existing, db⟩
  | none =>
      let new_user : UserBase :=
        ⟨freshId, user.email, user.password, UserRole.USER, true,
          user.first_name, user.last_name⟩
      ⟨201, new_user, dbPut db freshId new_user⟩

/-- `create_blog_post` (`main.py`).  Scans for the first post with the
payload's slug; otherwise mints a new record.  `t1` and `t2` are the two
`utc_now()` default-factory readings, taken in field order (`created_at`
before `updated_at`).  The route is declared with `status_code=201` and the
handler never overrides the response status, so both branches answer 201. -/
def create_blog_post (db : Store BlogPostBase) (post : BlogPostCreate)
    (freshId t1 t2 : Nat) : CreateResult BlogPostBase :=
  match (dbValues db).find? (fun p => p.slug == post.slug) with
  | some existing => ⟨201, existing, db⟩
  | none =>
      let new_post : BlogPostBase :=
        ⟨freshId, post.title, post.slug, post.excerpt, post.content,
          post.is_published, post.author_id, t1, t2⟩
      ⟨201, new_post, dbPut db freshId new_post⟩

/-- A tri-state update field, as Pydantic distinguishes it: absent from the
payload, present with JSON null, or present with a value.  `model_dump`
with `exclude_unset=True` keeps the last two; the subsequent
`if v is not None` filter keeps only `value`. -/
inductive Patch (α : Type) where
  | absent
  | null
  | value (v : α)
deriving DecidableEq

/-- Whether the field survives the `exclude_unset` dump and the None filter,
i.e. lands in `update_data`. -/
def Patch.isValue : Patch α → Bool
  | .value _ => true
  | _ => false

/-- The merge of one payload field into one stored attribute: only a
present-with-value field overwrites. -/
def patchApply (p : Patch α) (old : α) : α :=
  match p with
  | .value v => v
  | _ => old

/-- The merge into an optional stored attribute (e.g. `first_name`): a
present-with-value field stores `some v`; null or absent leaves the old
value, so the attribute can never be reset to `None` via update. -/
def patchApplyOpt (p : Patch α) (old : Option α) : Option α :=
  match p with
  | .value v => some v
  | _ => old

/-- `UserUpdate` payload (`models/user.py`): every field optional and
nullable. -/
structure UserUpdate where
  email : Patch String
  password : Patch String
  role : Patch UserRole
  is_active : Patch Bool
  first_name : Patch String
  last_name : Patch String
deriving DecidableEq

/-- The field loop of `update_user`: `setattr` for every key of
`update_data` (each one a `UserBase` attribute, so the `hasattr` guard always
passes; the password branch merely unwraps `SecretStr`). -/
def applyUserUpdate (u : UserBase) (upd : UserUpdate) : UserBase :=
  { u with
    email := patchApply upd.email u.email
    password := patchApply upd.password u.password
    role := patchApply upd.role u.role
    is_active := patchApply upd.is_active u.is_active
    first_name := patchApplyOpt upd.first_name u.first_name
    last_name := patchApplyOpt upd.last_name u.last_name }

/-- `update_user` (`main.py`): 404 when the id is absent, otherwise merge the
payload into the stored record and write it back under the same id.  No
uniqueness check is performed on any field. -/
def update_user (db : Store UserBase) (user_id : Nat) (upd : UserUpdate) :
    Except String (UserBase × Store UserBase) :=
  match dbGet db user_id with
  | none => .error "User not found"
  | some u =>
      let u' := applyUserUpdate u upd
      .ok (u', dbPut db user_id u')

/-- `BlogPostUpdate` payload (`models/blog_post.py`): every field optional and
nullable. -/
structure BlogPostUpdate where
  title : Patch String
  slug : Patch String
  excerpt : Patch String
  content : Patch String
  is_published : Patch Bool
  author_id : Patch Nat
deriving DecidableEq

/-- `update_data` is non-empty: at least one payload field is present with a
non-null value. -/
def blogPostUpdateNonempty (upd : BlogPostUpdate) : Bool :=
  upd.title.isValue || upd.slug.isValue || upd.excerpt.isValue ||
    upd.content.isValue || upd.is_published.isValue || upd.author_id.isValue

/-- The field loop of `update_blog_post`: merge the surviving payload fields;
when `update_data` is non-empty the code also inserts
`updated_at = datetime.now(timezone.utc)` (the clock reading `now`) into the
dict before the loop, so `updated_at` is refreshed exactly then. -/
def applyBlogPostUpdate (p : BlogPostBase) (upd : BlogPostUpdate) (now : Nat) :
    BlogPostBase :=
  { p with
    title := patchApply upd.title p.title
    slug := patchApply upd.slug p.slug
    excerpt := patchApplyOpt upd.excerpt p.excerpt
    content := patchApply upd.content p.content
    is_published := patchApply upd.is_published p.is_published
    author_id := patchApply upd.author_id p.author_id
    updated_at := if blogPostUpdateNonempty upd then now else p.updated_at }

/-- `update_blog_post` (`main.py`): 404 when the id is absent, otherwise merge
and write back; `now` is the single `datetime.now(timezone.utc)` reading the
handler takes.  No slug uniqueness check is performed. -/
def update_blog_post (db : Store BlogPostBase) (post_id : Nat)
    (upd : BlogPostUpdate) (now : Nat) :
    Except String (BlogPostBase × Store BlogPostBase) :=
  match dbGet db post_id with
  | none => .error "Blog post not found"
  | some p =>
      let p' := applyBlogPostUpdate p upd now
      .ok (p', dbPut db post_id p')

/-- One entry of a structured 422 `detail` array: `type`, `loc`, `msg` and the
echoed `input`. -/
structure ErrDetail where
  typ : String
  loc : List String
  msg : String
  input : String
deriving DecidableEq

/-- The submitted query-parameter names as Starlette's
`request.query_params.keys()` yields them: a dict built from the raw pairs,
so duplicates collapse onto their first occurrence. -/
def qpKeys (qs : List (String × String)) : List String :=
  (qs.map Prod.fst).eraseDups

/-- `request.query_params[k]`: the dict lookup, which holds the LAST submitted
value for the name. -/
def qpGet (qs : List (String × String)) (k : String) : String :=
  (((qs.filter (fun p => p.1 == k)).map Prod.snd).getLast?).getD ""

/-- The allow-list both listing endpoints pass to `strict_query_params`. -/
def allowedListingParams : List String := ["skip", "limit"]

/-- `strict_query_params` (`main.py`): collect the submitted names outside the
allow-list; if any exist, answer the structured 422 detail (`some detail`),
one entry per unknown name carrying location `["query", name]`, the fixed
message and the submitted value; otherwise let the request proceed
(`none`). -/
def strict_query_params (allowed : List String) (qs : List (String × String)) :
    Option (List ErrDetail) :=
  let unknown := (qpKeys qs).filter (fun k => !(allowed.contains k))
  if unknown.isEmpty then none
  else some (unknown.map (fun k =>
    ⟨"value_error", ["query", k], "Unknown query parameter", qpGet qs k⟩))

/-- Python list slice `l[a : b]` (for the clamping semantics of non-negative
and negative bounds). -/
def pySlice (l : List α) (a b : Int) : List α :=
  let n : Int := l.length
  let a' : Int := if a < 0 then max 0 (n + a) else a
  let b' : Int := if b < 0 then max 0 (n + b) else b
  (l.take b'.toNat).drop a'.toNat

/-- The `skip`/`limit` handling shared by `read_users` and `read_blog_posts`:
FastAPI fills the defaults (`skip = 0`, `limit = 100`) for omitted
parameters, enforces `Query(ge=0)` on `skip` and `Query(ge=1, le=100)` on
`limit` (emitting one structured detail entry per violated bound), and the
handler body answers the pure slice `records[skip : skip + limit]`. -/
def paginateErrs (skip limit : Int) : List ErrDetail :=
  (if skip < 0 then
    [⟨"greater_than_equal", ["query", "skip"],
      "Input should be greater than or equal to 0", toString skip⟩]
   else []) ++
  (if limit < 1 then
    [⟨"greater_than_equal", ["query", "limit"],
      "Input should be greater than or equal to 1", toString limit⟩]
   else []) ++
  (if 100 < limit then
    [⟨"less_than_equal", ["query", "limit"],
      "Input should be less than or equal to 100", toString limit⟩]
   else [])

def paginate (records : List α) (skipArg limitArg : Option Int) :
    Except (List ErrDetail) (List α) :=
  let skip := skipArg.getD 0
  let limit := limitArg.getD 100
  if (paginateErrs skip limit).isEmpty then
    .ok (pySlice records skip (skip + limit))
  else .error (paginateErrs skip limit)

/-- `GET /users/`: the strict query guard runs ahead of the handler (a
decorator-level dependency); `skipArg`/`limitArg` are the framework-parsed
integer values of the `skip`/`limit` entries of `qs` (`none` when omitted).
The success body is a bare JSON array of `UserRead` — no total-count field
exists in the response type. -/
def read_users (db : Store UserBase) (qs : List (String × String))
    (skipArg limitArg : Option Int) : Except (List ErrDetail) (List UserRead) :=
  match strict_query_params allowedListingParams qs with
  | some detail => .error detail
  | none => (paginate (dbValues db) skipArg limitArg).map (List.map userRead)

/-- `GET /posts/`: same shape as `read_users` over the blog-post store. -/
def read_blog_posts (db : Store BlogPostBase) (qs : List (String × String))
    (skipArg limitArg : Option Int) :
    Except (List ErrDetail) (List BlogPostRead) :=
  match strict_query_params allowedListingParams qs with
  | some detail => .error detail
  | none => (paginate (dbValues db) skipArg limitArg).map (List.map blogPostRead)

/-- `GET /users/{user_id}` (`read_user` with the `get_user_from_db`
dependency): 404 when absent, else the record serialized as `UserRead`. -/
def read_user (db : Store UserBase) (user_id : Nat) : Except String UserRead :=
  match dbGet db user_id with
  | none => .error "User not found"
  | some u => .ok (userRead u)

/-! ### Store lemmas -/

theorem find?_eq_head?_filter (p : α → Bool) (l : List α) :
    l.find? p = (l.filter p).head? := by
  induction l with
  | nil => rfl
  | cons a t ih =>
      cases h : p a with
      | true => rw [List.find?_cons_of_pos _ h, List.filter_cons_of_pos h, List.head?_cons]
      | false => rw [List.find?_cons_of_neg, List.filter_cons_of_neg, ih] <;> simp [h]

theorem dbGet_dbPut_self (db : Store α) (k : Nat) (v : α) :
    dbGet (dbPut db k v) k = some v := by
  induction db with
  | nil => simp [dbPut, dbGet]
  | cons hd t ih =>
      by_cases h : hd.1 = k
      · simp [dbPut, dbGet, h]
      · simp [dbPut, dbGet, h, ih]

theorem dbGet_dbPut_ne (db : Store α) {k k' : Nat} (v : α) (h : k' ≠ k) :
    dbGet (dbPut db k v) k' = dbGet db k' := by
  induction db with
  | nil => simp [dbPut, dbGet, Ne.symm h]
  | cons hd t ih =>
      by_cases hk : hd.1 = k
      · subst hk
        simp [dbPut, dbGet, Ne.symm h]
      · by_cases hk' : hd.1 = k' <;> simp [dbPut, dbGet, hk, hk', h, ih]

theorem dbPut_of_fresh (db : Store α) {k : Nat} (v : α) (h : dbGet db k = none) :
    dbPut db k v = db ++ [(k, v)] := by
  induction db with
  | nil => rfl
  | cons hd t ih =>
      by_cases hk : hd.1 = k
      · simp [dbGet, hk] at h
      · simp only [dbGet, hk, if_neg hk] at h
        simp [dbPut, hk, ih h]

theorem dbValues_append (db l : Store α) :
    dbValues (db ++ l) = dbValues db ++ dbValues l := by
  simp [dbValues]

/-! ### Idempotent create -/

/-- First create with a fresh key mints; a second payload with the same email
then answers the minted record and leaves the store as it was. -/
theorem create_user_second (db : Store UserBase) (p1 p2 : UserCreate)
    (f1 f2 : Nat) (hfresh : dbGet db f1 = none) (hkey : p2.email = p1.email) :
    create_user (create_user db p1 f1).db p2 f2 =
      ⟨201, (create_user db p1 f1).body, (create_user db p1 f1).db⟩ := by
  rcases hf : (dbValues db).find? (fun u => u.email == p1.email) with _ | e
  · have h1 : create_user db p1 f1 =
        ⟨201, ⟨f1, p1.email, p1.password, UserRole.USER, true,
          p1.first_name, p1.last_name⟩,
          dbPut db f1 ⟨f1, p1.email, p1.password, UserRole.USER, true,
            p1.first_name, p1.last_name⟩⟩ := by
      simp only [create_user, hf]
    rw [h1]
    have hfind2 : (dbValues (dbPut db f1
        ⟨f1, p1.email, p1.password, UserRole.USER, true,
          p1.first_name, p1.last_name⟩)).find? (fun u => u.email == p2.email) =
        some ⟨f1, p1.email, p1.password, UserRole.USER, true,
          p1.first_name, p1.last_name⟩ := by
      rw [dbPut_of_fresh db _ hfresh, dbValues_append, List.find?_append]
      simp only [hkey, hf]
      simp [dbValues, List.find?]
    simp only [create_user, hfind2]
  · have h1 : create_user db p1 f1 = ⟨201, e, db⟩ := by
      simp only [create_user, hf]
    rw [h1]
    have hfind2 : (dbValues db).find? (fun u => u.email == p2.email) = some e := by
      simp only [hkey, hf]
    simp only [create_user, hfind2]

/-- Blog-post analogue of `create_user_second`, keyed on the slug. -/
theorem create_blog_post_second (db : Store BlogPostBase)
    (q1 q2 : BlogPostCreate) (g1 g2 t1 t2 t1' t2' : Nat)
    (hfresh : dbGet db g1 = none) (hkey : q2.slug = q1.slug) :
    create_blog_post (create_blog_post db q1 g1 t1 t2).db q2 g2 t1' t2' =
      ⟨201, (create_blog_post db q1 g1 t1 t2).body,
        (create_blog_post db q1 g1 t1 t2).db⟩ := by
  rcases hf : (dbValues db).find? (fun r => r.slug == q1.slug) with _ | e
  · have h1 : create_blog_post db q1 g1 t1 t2 =
        ⟨201, ⟨g1, q1.title, q1.slug, q1.excerpt, q1.content,
          q1.is_published, q1.author_id, t1, t2⟩,
          dbPut db g1 ⟨g1, q1.title, q1.slug, q1.excerpt, q1.content,
            q1.is_published, q1.author_id, t1, t2⟩⟩ := by
      simp only [create_blog_post, hf]
    rw [h1]
    have hfind2 : (dbValues (dbPut db g1
        ⟨g1, q1.title, q1.slug, q1.excerpt, q1.content,
          q1.is_published, q1.author_id, t1, t2⟩)).find?
          (fun r => r.slug == q2.slug) =
        some ⟨g1, q1.title, q1.slug, q1.excerpt, q1.content,
          q1.is_published, q1.author_id, t1, t2⟩ := by
      rw [dbPut_of_fresh db _ hfresh, dbValues_append, List.find?_append]
      simp only [hkey, hf]
      simp [dbValues, List.find?]
    simp only [create_blog_post, hfind2]
  · have h1 : create_blog_post db q1 g1 t1 t2 = ⟨201, e, db⟩ := by
      simp only [create_blog_post, hf]
    rw [h1]
    have hfind2 : (dbValues db).find? (fun r => r.slug == q2.slug) = some e := by
      simp only [hkey, hf]
    simp only [create_blog_post, hfind2]

/-! ### Sample data for concrete evaluations -/

def uPayload1 : UserCreate := ⟨"ann@example.com", "Password1", some "Ann", none⟩

def uPayload2 : UserCreate :=
  ⟨"ann@example.com", "Different9", some "Bob", some "Smith"⟩

def bPayload1 : BlogPostCreate := ⟨"Hi", "hi-there", none, "0123456789", false, 42⟩

def bPayload2 : BlogPostCreate :=
  ⟨"Other", "hi-there", some "teaser", "abcdefghij", true, 43⟩

/-! ### Claim theorems: idempotent create -/

/-- Claim C1: for every pair of Create requests whose payloads carry the same
natural key (email for Users, slug for Blog Posts), the second request
returns the record the first request answered — in particular the same
`id` — and leaves the store unchanged; since the second payload (`p2`, `q2`)
is arbitrary apart from its key field, every non-key field of the second
payload is discarded. -/
theorem create_same_key_second_request_idempotent
    (udb : Store UserBase) (p1 p2 : UserCreate) (f1 f2 : Nat)
    (pdb : Store BlogPostBase) (q1 q2 : BlogPostCreate) (g1 g2 t1 t2 t1' t2' : Nat)
    (hufresh : dbGet udb f1 = none) (hukey : p2.email = p1.email)
    (hpfresh : dbGet pdb g1 = none) (hpkey : q2.slug = q1.slug) :
    create_user (create_user udb p1 f1).db p2 f2 =
      ⟨201, (create_user udb p1 f1).body, (create_user udb p1 f1).db⟩ ∧
    create_blog_post (create_blog_post pdb q1 g1 t1 t2).db q2 g2 t1' t2' =
      ⟨201, (create_blog_post pdb q1 g1 t1 t2).body,
        (create_blog_post pdb q1 g1 t1 t2).db⟩ :=
  ⟨create_user_second udb p1 p2 f1 f2 hufresh hukey,
    create_blog_post_second pdb q1 q2 g1 g2 t1 t2 t1' t2' hpfresh hpkey⟩

/-- Witness for C1 at concrete payloads that differ in every non-key field. -/
theorem create_same_key_second_request_idempotent_witness :
    dbGet ([] : Store UserBase) 1 = none ∧ uPayload2.email = uPayload1.email ∧
    dbGet ([] : Store BlogPostBase) 5 = none ∧ bPayload2.slug = bPayload1.slug ∧
    (create_user (create_user [] uPayload1 1).db uPayload2 2 =
      ⟨201, (create_user [] uPayload1 1).body, (create_user [] uPayload1 1).db⟩ ∧
    create_blog_post (create_blog_post [] bPayload1 5 3 4).db bPayload2 6 7 8 =
      ⟨201, (create_blog_post [] bPayload1 5 3 4).body,
        (create_blog_post [] bPayload1 5 3 4).db⟩) :=
  ⟨by decide, by decide, by decide, by decide,
    create_same_key_second_request_idempotent [] uPayload1 uPayload2 1 2
      [] bPayload1 bPayload2 5 6 3 4 7 8 (by decide) (by decide) (by decide)
      (by decide)⟩

/-- Claim C2 (code bug evaluation): at the failing input — the identical
Create payload issued twice — the second response carries HTTP status 201,
not the 200 the claim (and the handlers' own docstrings) state: both POST
routes fix `status_code=201` and never override it on the already-exists
path.  The first, genuinely-creating request answers 201 as claimed. -/
theorem create_duplicate_status_is_201_not_200 :
    (create_user [] uPayload1 1).status = 201 ∧
    (create_user (create_user [] uPayload1 1).db uPayload1 2).status = 201 ∧
    (create_blog_post [] bPayload1 1 0 0).status = 201 ∧
    (create_blog_post (create_blog_post [] bPayload1 1 0 0).db bPayload1 2 0 0).status
      = 201 := by
  decide

/-- Claim C9: when the store holds several records whose natural key equals
the payload's key, the idempotent-create scan answers exactly the first match
in insertion order (the head of the filtered value list) and leaves the store
unchanged. -/
theorem create_scan_returns_first_match
    (udb : Store UserBase) (p : UserCreate) (f : Nat)
    (pdb : Store BlogPostBase) (q : BlogPostCreate) (g t1 t2 : Nat)
    (hu : (dbValues udb).filter (fun u => u.email == p.email) ≠ [])
    (hp : (dbValues pdb).filter (fun r => r.slug == q.slug) ≠ []) :
    (((dbValues udb).filter (fun u => u.email == p.email)).head? =
        some (create_user udb p f).body ∧ (create_user udb p f).db = udb) ∧
    (((dbValues pdb).filter (fun r => r.slug == q.slug)).head? =
        some (create_blog_post pdb q g t1 t2).body ∧
      (create_blog_post pdb q g t1 t2).db = pdb) := by
  constructor
  · rcases List.exists_cons_of_ne_nil hu with ⟨e, rest, he⟩
    have hsome : (dbValues udb).find? (fun u => u.email == p.email) = some e := by
      rw [find?_eq_head?_filter, he, List.head?_cons]
    simp [create_user, hsome, he]
  · rcases List.exists_cons_of_ne_nil hp with ⟨e, rest, he⟩
    have hsome : (dbValues pdb).find? (fun r => r.slug == q.slug) = some e := by
      rw [find?_eq_head?_filter, he, List.head?_cons]
    simp [create_blog_post, hsome, he]

def dupUserDb : Store UserBase :=
  [(1, ⟨1, "dup@example.com", "Password1", UserRole.USER, true, none, none⟩),
   (2, ⟨2, "dup@example.com", "Password2", UserRole.USER, true, none, none⟩)]

def dupPostDb : Store BlogPostBase :=
  [(3, ⟨3, "A", "same-slug", none, "0123456789", false, 9, 0, 0⟩),
   (4, ⟨4, "B", "same-slug", none, "abcdefghij", true, 9, 1, 1⟩)]

def dupUserPayload : UserCreate := ⟨"dup@example.com", "Whatever99", none, none⟩

def dupPostPayload : BlogPostCreate :=
  ⟨"C", "same-slug", none, "0123456789", false, 10⟩

/-- Witness for C9 on stores holding two records with the same natural key. -/
theorem create_scan_returns_first_match_witness :
    ((dbValues dupUserDb).filter
        (fun u => u.email == dupUserPayload.email) ≠ [] ∧
      (dbValues dupPostDb).filter
        (fun r => r.slug == dupPostPayload.slug) ≠ []) ∧
    ((((dbValues dupUserDb).filter
          (fun u => u.email == dupUserPayload.email)).head? =
        some (create_user dupUserDb dupUserPayload 7).body ∧
      (create_user dupUserDb dupUserPayload 7).db = dupUserDb) ∧
    (((dbValues dupPostDb).filter
          (fun r => r.slug == dupPostPayload.slug)).head? =
        some (create_blog_post dupPostDb dupPostPayload 8 5 6).body ∧
      (create_blog_post dupPostDb dupPostPayload 8 5 6).db = dupPostDb)) :=
  ⟨⟨by decide, by decide⟩,
    create_scan_returns_first_match dupUserDb dupUserPayload 7
      dupPostDb dupPostPayload 8 5 6 (by decide) (by decide)⟩

/-! ### Partial update: merge semantics -/

theorem patchApply_value {p : Patch α} (old : α) {v : α} (h : p = .value v) :
    patchApply p old = v := by subst h; rfl

theorem patchApply_not_value {p : Patch α} (old : α) (h : p.isValue = false) :
    patchApply p old = old := by
  cases p with
  | absent => rfl
  | null => rfl
  | value v => simp [Patch.isValue] at h

theorem patchApplyOpt_value {p : Patch α} (old : Option α) {v : α}
    (h : p = .value v) : patchApplyOpt p old = some v := by subst h; rfl

theorem patchApplyOpt_not_value {p : Patch α} (old : Option α)
    (h : p.isValue = false) : patchApplyOpt p old = old := by
  cases p with
  | absent => rfl
  | null => rfl
  | value v => simp [Patch.isValue] at h

/-- Claim C3: a PATCH with an existing target overwrites exactly the payload
fields that are present with a non-null value; every absent or
present-with-null field keeps its stored value unchanged (no field can be
cleared to null), the id and `created_at` are untouched, and the Blog Post
`updated_at` is refreshed to the handler's clock reading exactly when at
least one field is applied. -/
theorem update_applies_exactly_present_nonnull_fields
    (udb : Store UserBase) (uid : Nat) (uu : UserUpdate) (u : UserBase)
    (hu : dbGet udb uid = some u)
    (pdb : Store BlogPostBase) (pid : Nat) (pu : BlogPostUpdate)
    (p : BlogPostBase) (hp : dbGet pdb pid = some p) (now : Nat) :
    (∃ u', update_user udb uid uu = .ok (u', dbPut udb uid u') ∧
      dbGet (dbPut udb uid u') uid = some u' ∧
      u'.id = u.id ∧
      (∀ v, uu.email = .value v → u'.email = v) ∧
      (uu.email.isValue = false → u'.email = u.email) ∧
      (∀ v, uu.password = .value v → u'.password = v) ∧
      (uu.password.isValue = false → u'.password = u.password) ∧
      (∀ v, uu.role = .value v → u'.role = v) ∧
      (uu.role.isValue = false → u'.role = u.role) ∧
      (∀ v, uu.is_active = .value v → u'.is_active = v) ∧
      (uu.is_active.isValue = false → u'.is_active = u.is_active) ∧
      (∀ v, uu.first_name = .value v → u'.first_name = some v) ∧
      (uu.first_name.isValue = false → u'.first_name = u.first_name) ∧
      (∀ v, uu.last_name = .value v → u'.last_name = some v) ∧
      (uu.last_name.isValue = false → u'.last_name = u.last_name)) ∧
    (∃ p', update_blog_post pdb pid pu now = .ok (p', dbPut pdb pid p') ∧
      dbGet (dbPut pdb pid p') pid = some p' ∧
      p'.id = p.id ∧
      p'.created_at = p.created_at ∧
      (∀ v, pu.title = .value v → p'.title = v) ∧
      (pu.title.isValue = false → p'.title = p.title) ∧
      (∀ v, pu.slug = .value v → p'.slug = v) ∧
      (pu.slug.isValue = false → p'.slug = p.slug) ∧
      (∀ v, pu.excerpt = .value v → p'.excerpt = some v) ∧
      (pu.excerpt.isValue = false → p'.excerpt = p.excerpt) ∧
      (∀ v, pu.content = .value v → p'.content = v) ∧
      (pu.content.isValue = false → p'.content = p.content) ∧
      (∀ v, pu.is_published = .value v → p'.is_published = v) ∧
      (pu.is_published.isValue = false → p'.is_published = p.is_published) ∧
      (∀ v, pu.author_id = .value v → p'.author_id = v) ∧
      (pu.author_id.isValue = false → p'.author_id = p.author_id) ∧
      (blogPostUpdateNonempty pu = true → p'.updated_at = now) ∧
      (blogPostUpdateNonempty pu = false → p'.updated_at = p.updated_at)) := by
  constructor
  · refine ⟨applyUserUpdate u uu, ?_, dbGet_dbPut_self _ _ _, rfl,
      fun v hv => patchApply_value u.email hv,
      fun h => patchApply_not_value u.email h,
      fun v hv => patchApply_value u.password hv,
      fun h => patchApply_not_value u.password h,
      fun v hv => patchApply_value u.role hv,
      fun h => patchApply_not_value u.role h,
      fun v hv => patchApply_value u.is_active hv,
      fun h => patchApply_not_value u.is_active h,
      fun v hv => patchApplyOpt_value u.first_name hv,
      fun h => patchApplyOpt_not_value u.first_name h,
      fun v hv => patchApplyOpt_value u.last_name hv,
      fun h => patchApplyOpt_not_value u.last_name h⟩
    simp only [update_user, hu]
  · refine ⟨applyBlogPostUpdate p pu now, ?_, dbGet_dbPut_self _ _ _, rfl, rfl,
      fun v hv => patchApply_value p.title hv,
      fun h => patchApply_not_value p.title h,
      fun v hv => patchApply_value p.slug hv,
      fun h => patchApply_not_value p.slug h,
      fun v hv => patchApplyOpt_value p.excerpt hv,
      fun h => patchApplyOpt_not_value p.excerpt h,
      fun v hv => patchApply_value p.content hv,
      fun h => patchApply_not_value p.content h,
      fun v hv => patchApply_value p.is_published hv,
      fun h => patchApply_not_value p.is_published h,
      fun v hv => patchApply_value p.author_id hv,
      fun h => patchApply_not_value p.author_id h,
      fun h => ?_, fun h => ?_⟩
    · simp only [update_blog_post, hp]
    · simp [applyBlogPostUpdate, h]
    · simp [applyBlogPostUpdate, h]

def sampleUser : UserBase :=
  ⟨1, "ann@example.com", "Password1", UserRole.USER, true, some "Ann", some "Lee"⟩

def samplePost : BlogPostBase :=
  ⟨2, "Hi", "hi-there", some "t", "0123456789", false, 42, 10, 11⟩

def uDb1 : Store UserBase := [(1, sampleUser)]

def pDb1 : Store BlogPostBase := [(2, samplePost)]

/-- A user PATCH mixing all three field states: `email` and `is_active`
present with values, `password` and `first_name` present with null, the rest
absent. -/
def uUpdateSample : UserUpdate :=
  ⟨.value "new@example.com", .null, .absent, .value false, .null, .absent⟩

/-- A blog-post PATCH with `is_published` present with a value, `slug` and
`excerpt` present with null, the rest absent. -/
def pUpdateSample : BlogPostUpdate :=
  ⟨.absent, .null, .null, .absent, .value true, .absent⟩

/-- Witness for C3 at a concrete store and tri-state payloads. -/
theorem update_applies_exactly_present_nonnull_fields_witness :
    (dbGet uDb1 1 = some sampleUser ∧ dbGet pDb1 2 = some samplePost) ∧
    ((∃ u', update_user uDb1 1 uUpdateSample = .ok (u', dbPut uDb1 1 u') ∧
      dbGet (dbPut uDb1 1 u') 1 = some u' ∧
      u'.id = sampleUser.id ∧
      (∀ v, uUpdateSample.email = .value v → u'.email = v) ∧
      (uUpdateSample.email.isValue = false → u'.email = sampleUser.email) ∧
      (∀ v, uUpdateSample.password = .value v → u'.password = v) ∧
      (uUpdateSample.password.isValue = false →
        u'.password = sampleUser.password) ∧
      (∀ v, uUpdateSample.role = .value v → u'.role = v) ∧
      (uUpdateSample.role.isValue = false → u'.role = sampleUser.role) ∧
      (∀ v, uUpdateSample.is_active = .value v → u'.is_active = v) ∧
      (uUpdateSample.is_active.isValue = false →
        u'.is_active = sampleUser.is_active) ∧
      (∀ v, uUpdateSample.first_name = .value v → u'.first_name = some v) ∧
      (uUpdateSample.first_name.isValue = false →
        u'.first_name = sampleUser.first_name) ∧
      (∀ v, uUpdateSample.last_name = .value v → u'.last_name = some v) ∧
      (uUpdateSample.last_name.isValue = false →
        u'.last_name = sampleUser.last_name)) ∧
    (∃ p', update_blog_post pDb1 2 pUpdateSample 99 = .ok (p', dbPut pDb1 2 p') ∧
      dbGet (dbPut pDb1 2 p') 2 = some p' ∧
      p'.id = samplePost.id ∧
      p'.created_at = samplePost.created_at ∧
      (∀ v, pUpdateSample.title = .value v → p'.title = v) ∧
      (pUpdateSample.title.isValue = false → p'.title = samplePost.title) ∧
      (∀ v, pUpdateSample.slug = .value v → p'.slug = v) ∧
      (pUpdateSample.slug.isValue = false → p'.slug = samplePost.slug) ∧
      (∀ v, pUpdateSample.excerpt = .value v → p'.excerpt = some v) ∧
      (pUpdateSample.excerpt.isValue = false →
        p'.excerpt = samplePost.excerpt) ∧
      (∀ v, pUpdateSample.content = .value v → p'.content = v) ∧
      (pUpdateSample.content.isValue = false →
        p'.content = samplePost.content) ∧
      (∀ v, pUpdateSample.is_published = .value v → p'.is_published = v) ∧
      (pUpdateSample.is_published.isValue = false →
        p'.is_published = samplePost.is_published) ∧
      (∀ v, pUpdateSample.author_id = .value v → p'.author_id = v) ∧
      (pUpdateSample.author_id.isValue = false →
        p'.author_id = samplePost.author_id) ∧
      (blogPostUpdateNonempty pUpdateSample = true → p'.updated_at = 99) ∧
      (blogPostUpdateNonempty pUpdateSample = false →
        p'.updated_at = samplePost.updated_at))) :=
  ⟨⟨by decide, by decide⟩,
    update_applies_exactly_present_nonnull_fields uDb1 1 uUpdateSample
      sampleUser (by decide) pDb1 2 pUpdateSample samplePost (by decide) 99⟩

/-- Claim C8: the update handlers re-check no uniqueness: a PATCH whose
payload sets the target's email (resp. slug) to a value another stored record
already holds succeeds, and afterwards the store holds two distinct records
sharing that natural-key value. -/
theorem update_skips_uniqueness_check
    (udb : Store UserBase) (uid uid' : Nat) (u t : UserBase) (e : String)
    (uu : UserUpdate)
    (hu : dbGet udb uid = some u) (ht : dbGet udb uid' = some t)
    (hune : uid ≠ uid') (hte : t.email = e) (huset : uu.email = .value e)
    (pdb : Store BlogPostBase) (pid pid' : Nat) (p r : BlogPostBase) (s : String)
    (pu : BlogPostUpdate) (now : Nat)
    (hpget : dbGet pdb pid = some p) (hrget : dbGet pdb pid' = some r)
    (hpne : pid ≠ pid') (hrs : r.slug = s) (hpset : pu.slug = .value s) :
    (∃ w db₂, update_user udb uid uu = .ok (w, db₂) ∧
      dbGet db₂ uid = some w ∧ w.email = e ∧
      dbGet db₂ uid' = some t ∧ t.email = e) ∧
    (∃ w db₂, update_blog_post pdb pid pu now = .ok (w, db₂) ∧
      dbGet db₂ pid = some w ∧ w.slug = s ∧
      dbGet db₂ pid' = some r ∧ r.slug = s) := by
  constructor
  · refine ⟨applyUserUpdate u uu, dbPut udb uid (applyUserUpdate u uu), ?_,
      dbGet_dbPut_self _ _ _, patchApply_value u.email huset, ?_, hte⟩
    · simp only [update_user, hu]
    · rw [dbGet_dbPut_ne udb _ (Ne.symm hune), ht]
  · refine ⟨applyBlogPostUpdate p pu now,
      dbPut pdb pid (applyBlogPostUpdate p pu now), ?_,
      dbGet_dbPut_self _ _ _, patchApply_value p.slug hpset, ?_, hrs⟩
    · simp only [update_blog_post, hpget]
    · rw [dbGet_dbPut_ne pdb _ (Ne.symm hpne), hrget]

def otherUser : UserBase :=
  ⟨2, "bob@example.com", "Password2", UserRole.USER, true, none, none⟩

def uDb2 : Store UserBase := [(1, sampleUser), (2, otherUser)]

def otherPost : BlogPostBase :=
  ⟨3, "B", "other-slug", none, "abcdefghij", true, 9, 1, 1⟩

def pDb2 : Store BlogPostBase := [(2, samplePost), (3, otherPost)]

/-- A user PATCH that copies `otherUser`'s email onto the target. -/
def uDupUpdate : UserUpdate :=
  ⟨.value "bob@example.com", .absent, .absent, .absent, .absent, .absent⟩

/-- A blog-post PATCH that copies `otherPost`'s slug onto the target. -/
def pDupUpdate : BlogPostUpdate :=
  ⟨.absent, .value "other-slug", .absent, .absent, .absent, .absent⟩

/-- Witness for C8: duplicating an email and a slug via PATCH on concrete
two-record stores. -/
theorem update_skips_uniqueness_check_witness :
    (dbGet uDb2 1 = some sampleUser ∧ dbGet uDb2 2 = some otherUser ∧
      (1 : Nat) ≠ 2 ∧ otherUser.email = "bob@example.com" ∧
      uDupUpdate.email = .value "bob@example.com" ∧
      dbGet pDb2 2 = some samplePost ∧ dbGet pDb2 3 = some otherPost ∧
      (2 : Nat) ≠ 3 ∧ otherPost.slug = "other-slug" ∧
      pDupUpdate.slug = .value "other-slug") ∧
    ((∃ w db₂, update_user uDb2 1 uDupUpdate = .ok (w, db₂) ∧
      dbGet db₂ 1 = some w ∧ w.email = "bob@example.com" ∧
      dbGet db₂ 2 = some otherUser ∧ otherUser.email = "bob@example.com") ∧
    (∃ w db₂, update_blog_post pDb2 2 pDupUpdate 55 = .ok (w, db₂) ∧
      dbGet db₂ 2 = some w ∧ w.slug = "other-slug" ∧
      dbGet db₂ 3 = some otherPost ∧ otherPost.slug = "other-slug")) :=
  ⟨⟨by decide, by decide, by decide, by decide, by decide, by decide,
      by decide, by decide, by decide, by decide⟩,
    update_skips_uniqueness_check uDb2 1 2 sampleUser otherUser
      "bob@example.com" uDupUpdate (by decide) (by decide) (by decide)
      (by decide) (by decide) pDb2 2 3 samplePost otherPost "other-slug"
      pDupUpdate 55 (by decide) (by decide) (by decide) (by decide) (by decide)⟩

/-! ### Password never serialized -/

/-- Two stored users that agree on every field except possibly the
password. -/
def pwEquiv (u v : UserBase) : Prop :=
  u.id = v.id ∧ u.email = v.email ∧ u.role = v.role ∧
    u.is_active = v.is_active ∧ u.first_name = v.first_name ∧
    u.last_name = v.last_name

/-- Two stores that agree entry-by-entry up to passwords. -/
def storePwEquiv (db db' : Store UserBase) : Prop :=
  List.Forall₂ (fun a b => a.1 = b.1 ∧ pwEquiv a.2 b.2) db db'

theorem userRead_eq_of_pwEquiv {u v : UserBase} (h : pwEquiv u v) :
    userRead u = userRead v := by
  obtain ⟨h1, h2, h3, h4, h5, h6⟩ := h
  simp [userRead, h1, h2, h3, h4, h5, h6]

theorem patchApply_congr (p : Patch α) {a b : α} (h : a = b) :
    patchApply p a = patchApply p b := by rw [h]

theorem patchApplyOpt_congr (p : Patch α) {a b : Option α} (h : a = b) :
    patchApplyOpt p a = patchApplyOpt p b := by rw [h]

theorem pwEquiv_applyUserUpdate {u v : UserBase} (upd : UserUpdate)
    (h : pwEquiv u v) :
    pwEquiv (applyUserUpdate u upd) (applyUserUpdate v upd) := by
  obtain ⟨h1, h2, h3, h4, h5, h6⟩ := h
  exact ⟨h1, patchApply_congr _ h2, patchApply_congr _ h3,
    patchApply_congr _ h4, patchApplyOpt_congr _ h5, patchApplyOpt_congr _ h6⟩

theorem dbGet_rel {db db' : Store UserBase} (h : storePwEquiv db db')
    (k : Nat) : Option.Rel pwEquiv (dbGet db k) (dbGet db' k) := by
  induction h with
  | nil => exact .none
  | cons hab htail ih =>
      rename_i a b l₁ l₂
      obtain ⟨hk, hpw⟩ := hab
      simp only [dbGet]
      by_cases hka : a.1 = k
      · rw [if_pos hka, if_pos (hk ▸ hka)]
        exact .some hpw
      · rw [if_neg hka, if_neg (fun hc => hka (hk ▸ hc))]
        exact ih

theorem find?_email_rel {db db' : Store UserBase} (h : storePwEquiv db db')
    (e : String) :
    Option.Rel pwEquiv ((dbValues db).find? (fun x => x.email == e))
      ((dbValues db').find? (fun x => x.email == e)) := by
  induction h with
  | nil => exact .none
  | cons hab htail ih =>
      rename_i a b l₁ l₂
      obtain ⟨hk, hpw⟩ := hab
      simp only [dbValues, List.map_cons]
      have he : (a.2.email == e) = (b.2.email == e) := by rw [hpw.2.1]
      cases hbe : b.2.email == e with
      | true =>
          have g1 : List.find? (fun x => x.email == e)
              (a.2 :: List.map Prod.snd l₁) = some a.2 :=
            List.find?_cons_of_pos _ (he.trans hbe)
          have g2 : List.find? (fun x => x.email == e)
              (b.2 :: List.map Prod.snd l₂) = some b.2 :=
            List.find?_cons_of_pos _ hbe
          rw [g1, g2]
          exact .some hpw
      | false =>
          have g1 : List.find? (fun x => x.email == e)
              (a.2 :: List.map Prod.snd l₁) =
              List.find? (fun x => x.email == e) (List.map Prod.snd l₁) :=
            List.find?_cons_of_neg _ (by simp only [he, hbe]; exact
              Bool.false_ne_true)
          have g2 : List.find? (fun x => x.email == e)
              (b.2 :: List.map Prod.snd l₂) =
              List.find? (fun x => x.email == e) (List.map Prod.snd l₂) :=
            List.find?_cons_of_neg _ (by simp only [hbe]; exact
              Bool.false_ne_true)
          rw [g1, g2]
          exact ih

theorem dbValues_userRead_eq {db db' : Store UserBase}
    (h : storePwEquiv db db') :
    (dbValues db).map userRead = (dbValues db').map userRead := by
  induction h with
  | nil => rfl
  | cons hab htail ih =>
      rename_i a b l₁ l₂
      simp only [dbValues, List.map_cons] at ih ⊢
      rw [userRead_eq_of_pwEquiv hab.2, ih]

theorem pySlice_map (f : α → β) (l : List α) (a b : Int) :
    pySlice (l.map f) a b = (pySlice l a b).map f := by
  simp [pySlice, List.map_take, List.map_drop]

theorem paginate_map_userRead_congr {l l' : List UserBase}
    (hmap : l.map userRead = l'.map userRead) (s t : Option Int) :
    (paginate l s t).map (List.map userRead) =
      (paginate l' s t).map (List.map userRead) := by
  simp only [paginate]
  by_cases hc : (paginateErrs (s.getD 0) (t.getD 100)).isEmpty <;>
    simp [hc, Except.map]
  rw [← pySlice_map, hmap, pySlice_map]

/-- Claim C4: the stored password never reaches a user-facing read
representation.  `userRead` is insensitive to the password field, and the
wire outputs of POST /users/ (body serialization), GET /users/,
GET /users/{id} and PATCH /users/{id} (body serialization) coincide on any
two stores that agree up to passwords; in particular two stored users
differing solely in password serialize to identical `UserRead` values. -/
theorem userRead_never_includes_password
    (u : UserBase) (pw : String)
    (udb udb' : Store UserBase) (h : storePwEquiv udb udb')
    (qs : List (String × String)) (skipArg limitArg : Option Int)
    (uid : Nat) (p : UserCreate) (fid : Nat) (uu : UserUpdate) :
    userRead { u with password := pw } = userRead u ∧
    userRead (create_user udb p fid).body =
      userRead (create_user udb' p fid).body ∧
    read_users udb qs skipArg limitArg = read_users udb' qs skipArg limitArg ∧
    read_user udb uid = read_user udb' uid ∧
    (update_user udb uid uu).map (fun r => userRead r.1) =
      (update_user udb' uid uu).map (fun r => userRead r.1) := by
  refine ⟨userRead_eq_of_pwEquiv ⟨rfl, rfl, rfl, rfl, rfl, rfl⟩, ?_, ?_, ?_, ?_⟩
  · have hrel := find?_email_rel h p.email
    rcases hfu : (dbValues udb).find? (fun x => x.email == p.email) with _ | a <;>
      rcases hfu' : (dbValues udb').find? (fun x => x.email == p.email) with _ | b <;>
      rw [hfu, hfu'] at hrel <;> cases hrel
    · simp [create_user, hfu, hfu']
    · rename_i hpw
      simp only [create_user, hfu, hfu']
      exact userRead_eq_of_pwEquiv hpw
  · simp only [read_users]
    cases hg : strict_query_params allowedListingParams qs
    · exact paginate_map_userRead_congr (dbValues_userRead_eq h) skipArg limitArg
    · rfl
  · have hrel := dbGet_rel h uid
    rcases hgu : dbGet udb uid with _ | a <;>
      rcases hgu' : dbGet udb' uid with _ | b <;>
      rw [hgu, hgu'] at hrel <;> cases hrel
    · simp [read_user, hgu, hgu']
    · rename_i hpw
      simp only [read_user, hgu, hgu', userRead_eq_of_pwEquiv hpw]
  · have hrel := dbGet_rel h uid
    rcases hgu : dbGet udb uid with _ | a <;>
      rcases hgu' : dbGet udb' uid with _ | b <;>
      rw [hgu, hgu'] at hrel <;> cases hrel
    · simp [update_user, hgu, hgu']
    · rename_i hpw
      simp only [update_user, hgu, hgu', Except.map]
      rw [userRead_eq_of_pwEquiv (pwEquiv_applyUserUpdate uu hpw)]

/-- The user of `uDb1` with only the password changed. -/
def sampleUserPw : UserBase :=
  ⟨1, "ann@example.com", "Zz9@Secret", UserRole.USER, true, some "Ann",
    some "Lee"⟩

def uDb1' : Store UserBase := [(1, sampleUserPw)]

/-- Witness for C4 on two one-record stores differing solely in the stored
password. -/
theorem userRead_never_includes_password_witness :
    storePwEquiv uDb1 uDb1' ∧
    (userRead { sampleUser with password := "Zz9@Secret" } = userRead sampleUser ∧
    userRead (create_user uDb1 uPayload1 3).body =
      userRead (create_user uDb1' uPayload1 3).body ∧
    read_users uDb1 [] none none = read_users uDb1' [] none none ∧
    read_user uDb1 1 = read_user uDb1' 1 ∧
    (update_user uDb1 1 uUpdateSample).map (fun r => userRead r.1) =
      (update_user uDb1' 1 uUpdateSample).map (fun r => userRead r.1)) :=
  ⟨List.Forall₂.cons ⟨rfl, rfl, rfl, rfl, rfl, rfl, rfl⟩ List.Forall₂.nil,
    userRead_never_includes_password sampleUser "Zz9@Secret" uDb1 uDb1'
      (List.Forall₂.cons ⟨rfl, rfl, rfl, rfl, rfl, rfl, rfl⟩ List.Forall₂.nil)
      [] none none 1 uPayload1 3 uUpdateSample⟩

/-! ### Strict query guard -/

/-- Claim C5: whenever the submitted query-parameter names are not all within
the `{skip, limit}` allow-list, the guard both listing endpoints run rejects
the request with a structured detail that has exactly one entry per unknown
parameter name, each entry carrying location `["query", name]`, the fixed
message "Unknown query parameter" and the submitted value — for every
submitted value. -/
theorem strict_query_guard_enumerates_unknown_params
    (qs : List (String × String))
    (h : ∃ k ∈ qpKeys qs, k ∉ allowedListingParams) :
    ∃ d, strict_query_params allowedListingParams qs = some d ∧
      d.length = ((qpKeys qs).filter
          (fun k => !(allowedListingParams.contains k))).length ∧
      (∀ e ∈ d, ∃ k ∈ qpKeys qs, k ∉ allowedListingParams ∧
        e.typ = "value_error" ∧ e.loc = ["query", k] ∧
        e.msg = "Unknown query parameter" ∧ e.input = qpGet qs k) ∧
      (∀ k ∈ qpKeys qs, k ∉ allowedListingParams →
        (⟨"value_error", ["query", k], "Unknown query parameter",
          qpGet qs k⟩ : ErrDetail) ∈ d) := by
  obtain ⟨k₀, hk₀mem, hk₀out⟩ := h
  have hk₀filter : k₀ ∈ (qpKeys qs).filter
      (fun k => !(allowedListingParams.contains k)) :=
    List.mem_filter.mpr ⟨hk₀mem, by simp [hk₀out]⟩
  have hne : (qpKeys qs).filter
      (fun k => !(allowedListingParams.contains k)) ≠ [] := by
    intro hnil
    rw [hnil] at hk₀filter
    exact (List.not_mem_nil k₀) hk₀filter
  have hempty : ((qpKeys qs).filter
      (fun k => !(allowedListingParams.contains k))).isEmpty = false := by
    rcases hl : (qpKeys qs).filter
        (fun k => !(allowedListingParams.contains k)) with _ | ⟨a, t⟩
    · exact absurd hl hne
    · rfl
  refine ⟨((qpKeys qs).filter
      (fun k => !(allowedListingParams.contains k))).map
      (fun k => ⟨"value_error", ["query", k], "Unknown query parameter",
        qpGet qs k⟩), ?_, List.length_map _ _, ?_, ?_⟩
  · simp only [strict_query_params, hempty, Bool.false_eq_true, if_false]
  · intro e he
    obtain ⟨k, hk, rfl⟩ := List.mem_map.mp he
    obtain ⟨hkmem, hkbool⟩ := List.mem_filter.mp hk
    exact ⟨k, hkmem, by simpa using hkbool, rfl, rfl, rfl, rfl⟩
  · intro k hkmem hkout
    exact List.mem_map.mpr ⟨k,
      List.mem_filter.mpr ⟨hkmem, by simp [hkout]⟩, rfl⟩

/-- Witness for C5 at the spec's example `GET /users/?foo=bar`. -/
theorem strict_query_guard_enumerates_unknown_params_witness :
    (∃ k ∈ qpKeys [("foo", "bar")], k ∉ allowedListingParams) ∧
    (∃ d, strict_query_params allowedListingParams [("foo", "bar")] = some d ∧
      d.length = ((qpKeys [("foo", "bar")]).filter
          (fun k => !(allowedListingParams.contains k))).length ∧
      (∀ e ∈ d, ∃ k ∈ qpKeys [("foo", "bar")], k ∉ allowedListingParams ∧
        e.typ = "value_error" ∧ e.loc = ["query", k] ∧
        e.msg = "Unknown query parameter" ∧
        e.input = qpGet [("foo", "bar")] k) ∧
      (∀ k ∈ qpKeys [("foo", "bar")], k ∉ allowedListingParams →
        (⟨"value_error", ["query", k], "Unknown query parameter",
          qpGet [("foo", "bar")] k⟩ : ErrDetail) ∈ d)) :=
  ⟨⟨"foo", by decide, by decide⟩,
    strict_query_guard_enumerates_unknown_params [("foo", "bar")]
      ⟨"foo", by decide, by decide⟩⟩

/-! ### Listing: ranges, slices, defaults -/

theorem strict_query_params_allows (allowed : List String)
    (qs : List (String × String))
    (h : ∀ k ∈ qpKeys qs, k ∈ allowed) :
    strict_query_params allowed qs = none := by
  have hnil : (qpKeys qs).filter (fun k => !(allowed.contains k)) = [] := by
    rw [List.filter_eq_nil_iff]
    intro k hk
    simp [h k hk]
  simp only [strict_query_params, hnil, List.isEmpty_nil, if_true]

theorem paginateErrs_isEmpty_iff (skip limit : Int) :
    (paginateErrs skip limit).isEmpty = true ↔
      (0 ≤ skip ∧ 1 ≤ limit ∧ limit ≤ 100) := by
  simp only [paginateErrs]
  by_cases h1 : skip < 0 <;> by_cases h2 : limit < 1 <;>
    by_cases h3 : 100 < limit <;> simp [h1, h2, h3]
  all_goals omega

theorem pySlice_nonneg (l : List α) {a b : Int} (ha : 0 ≤ a) (hb : 0 ≤ b) :
    pySlice l a b = (l.drop a.toNat).take (b.toNat - a.toNat) := by
  simp only [pySlice]
  rw [if_neg (not_lt.mpr ha), if_neg (not_lt.mpr hb), List.drop_take]

theorem paginate_cases (records : List α) (skip limit : Int) :
    (0 ≤ skip ∧ 1 ≤ limit ∧ limit ≤ 100 ∧
      paginate records (some skip) (some limit) =
        .ok (pySlice records skip (skip + limit))) ∨
    (¬(0 ≤ skip ∧ 1 ≤ limit ∧ limit ≤ 100) ∧
      paginate records (some skip) (some limit) =
        .error (paginateErrs skip limit)) := by
  cases hemp : (paginateErrs skip limit).isEmpty with
  | true =>
      left
      obtain ⟨h1, h2, h3⟩ := (paginateErrs_isEmpty_iff skip limit).mp hemp
      exact ⟨h1, h2, h3, by simp [paginate, hemp]⟩
  | false =>
      right
      refine ⟨fun hr => ?_, by simp [paginate, hemp]⟩
      rw [(paginateErrs_isEmpty_iff skip limit).mpr hr] at hemp
      exact absurd hemp (by simp)

/-- Claim C7: with only allowed query parameters the guard admits the
request, and the listing succeeds exactly when `skip ≥ 0` and
`1 ≤ limit ≤ 100`; out-of-range values fail with the structured 422 detail.
On success the body is precisely the slice `records[skip : skip+limit]` of
the store's snapshot — equal to dropping `skip` records and taking `limit` —
serialized element-wise; the response type is a bare list, with no
total-count field. -/
theorem listing_success_iff_in_range
    (udb : Store UserBase) (pdb : Store BlogPostBase)
    (qs : List (String × String)) (skip limit : Int)
    (hqs : ∀ k ∈ qpKeys qs, k ∈ allowedListingParams) :
    strict_query_params allowedListingParams qs = none ∧
    ((∃ r, read_users udb qs (some skip) (some limit) = .ok r) ↔
      (0 ≤ skip ∧ 1 ≤ limit ∧ limit ≤ 100)) ∧
    (0 ≤ skip → 1 ≤ limit → limit ≤ 100 →
      read_users udb qs (some skip) (some limit) =
        .ok ((pySlice (dbValues udb) skip (skip + limit)).map userRead) ∧
      pySlice (dbValues udb) skip (skip + limit) =
        ((dbValues udb).drop skip.toNat).take limit.toNat) ∧
    ((∃ r, read_blog_posts pdb qs (some skip) (some limit) = .ok r) ↔
      (0 ≤ skip ∧ 1 ≤ limit ∧ limit ≤ 100)) ∧
    (0 ≤ skip → 1 ≤ limit → limit ≤ 100 →
      read_blog_posts pdb qs (some skip) (some limit) =
        .ok ((pySlice (dbValues pdb) skip (skip + limit)).map blogPostRead) ∧
      pySlice (dbValues pdb) skip (skip + limit) =
        ((dbValues pdb).drop skip.toNat).take limit.toNat) := by
  have hguard : strict_query_params allowedListingParams qs = none :=
    strict_query_params_allows _ _ hqs
  have hslice : ∀ (β : Type) (l : List β), 0 ≤ skip → 1 ≤ limit →
      pySlice l skip (skip + limit) = (l.drop skip.toNat).take limit.toNat := by
    intro β l h0 h1
    rw [pySlice_nonneg l h0 (by omega)]
    congr 1
    omega
  refine ⟨hguard, ?_, ?_, ?_, ?_⟩
  · rcases paginate_cases (dbValues udb) skip limit with ⟨h1, h2, h3, heq⟩ | ⟨hno, heq⟩
    · exact ⟨fun _ => ⟨h1, h2, h3⟩,
        fun _ => ⟨(pySlice (dbValues udb) skip (skip + limit)).map userRead,
          by simp [read_users, hguard, heq, Except.map]⟩⟩
    · refine ⟨fun ⟨r, hr⟩ => ?_, fun hr => absurd hr hno⟩
      simp [read_users, hguard, heq, Except.map] at hr
  · intro h0 h1 h2
    rcases paginate_cases (dbValues udb) skip limit with ⟨_, _, _, heq⟩ | ⟨hno, _⟩
    · exact ⟨by simp [read_users, hguard, heq, Except.map],
        hslice UserBase (dbValues udb) h0 h1⟩
    · exact absurd ⟨h0, h1, h2⟩ hno
  · rcases paginate_cases (dbValues pdb) skip limit with ⟨h1, h2, h3, heq⟩ | ⟨hno, heq⟩
    · exact ⟨fun _ => ⟨h1, h2, h3⟩,
        fun _ => ⟨(pySlice (dbValues pdb) skip (skip + limit)).map blogPostRead,
          by simp [read_blog_posts, hguard, heq, Except.map]⟩⟩
    · refine ⟨fun ⟨r, hr⟩ => ?_, fun hr => absurd hr hno⟩
      simp [read_blog_posts, hguard, heq, Except.map] at hr
  · intro h0 h1 h2
    rcases paginate_cases (dbValues pdb) skip limit with ⟨_, _, _, heq⟩ | ⟨hno, _⟩
    · exact ⟨by simp [read_blog_posts, hguard, heq, Except.map],
        hslice BlogPostBase (dbValues pdb) h0 h1⟩
    · exact absurd ⟨h0, h1, h2⟩ hno

def listQs : List (String × String) := [("skip", "1"), ("limit", "2")]

/-- Witness for C7 at `?skip=1&limit=2` over the two-record stores. -/
theorem listing_success_iff_in_range_witness :
    (∀ k ∈ qpKeys listQs, k ∈ allowedListingParams) ∧
    (strict_query_params allowedListingParams listQs = none ∧
    ((∃ r, read_users uDb2 listQs (some 1) (some 2) = .ok r) ↔
      ((0 : Int) ≤ 1 ∧ (1 : Int) ≤ 2 ∧ (2 : Int) ≤ 100)) ∧
    ((0 : Int) ≤ 1 → (1 : Int) ≤ 2 → (2 : Int) ≤ 100 →
      read_users uDb2 listQs (some 1) (some 2) =
        .ok ((pySlice (dbValues uDb2) 1 (1 + 2)).map userRead) ∧
      pySlice (dbValues uDb2) 1 (1 + 2) =
        ((dbValues uDb2).drop (1 : Int).toNat).take (2 : Int).toNat) ∧
    ((∃ r, read_blog_posts pDb2 listQs (some 1) (some 2) = .ok r) ↔
      ((0 : Int) ≤ 1 ∧ (1 : Int) ≤ 2 ∧ (2 : Int) ≤ 100)) ∧
    ((0 : Int) ≤ 1 → (1 : Int) ≤ 2 → (2 : Int) ≤ 100 →
      read_blog_posts pDb2 listQs (some 1) (some 2) =
        .ok ((pySlice (dbValues pDb2) 1 (1 + 2)).map blogPostRead) ∧
      pySlice (dbValues pDb2) 1 (1 + 2) =
        ((dbValues pDb2).drop (1 : Int).toNat).take (2 : Int).toNat)) :=
  ⟨by decide,
    listing_success_iff_in_range uDb2 pDb2 listQs 1 2 (by decide)⟩

/-- Claim C10: omitted `skip`/`limit` default to 0 and 100: a bare listing
request returns the first `min 100 n` records of an `n`-record store
(serialized element-wise). -/
theorem listing_defaults_first_min_100
    (udb : Store UserBase) (pdb : Store BlogPostBase) :
    read_users udb [] none none =
      .ok (((dbValues udb).take 100).map userRead) ∧
    ((dbValues udb).take 100).length = min 100 (dbValues udb).length ∧
    read_blog_posts pdb [] none none =
      .ok (((dbValues pdb).take 100).map blogPostRead) ∧
    ((dbValues pdb).take 100).length = min 100 (dbValues pdb).length := by
  have hguard : strict_query_params allowedListingParams [] = none := rfl
  have hemp : (paginateErrs 0 100).isEmpty = true := by decide
  have hslice : ∀ (β : Type) (l : List β), pySlice l 0 (0 + 100) = l.take 100 := by
    intro β l
    rw [pySlice_nonneg l le_rfl (by norm_num)]
    show (l.drop 0).take 100 = l.take 100
    rw [List.drop_zero]
  refine ⟨?_, List.length_take _ _, ?_, List.length_take _ _⟩
  · simp only [read_users, hguard, paginate, Option.getD_none, hslice]
    rw [if_pos hemp]
    rfl
  · simp only [read_blog_posts, hguard, paginate, Option.getD_none, hslice]
    rw [if_pos hemp]
    rfl

/-! ### Blog-post creation timestamps -/

/-- Claim C6 counterexample: when the clock advances between the two
`utc_now()` default-factory readings (readings 0 then 1), the freshly created
record violates `created_at == updated_at` even though the request followed
the 201 created path. -/
theorem blog_post_create_timestamps_counterexample :
    (create_blog_post [] bPayload1 1 0 1).status = 201 ∧
    (create_blog_post [] bPayload1 1 0 1).body.created_at ≠
      (create_blog_post [] bPayload1 1 0 1).body.updated_at := by
  decide

/-- Claim C6 (amended): immediately after a successful creation on the 201
path, the stored record's `created_at` is the first creation-time clock
reading and `updated_at` the second (taken in field order); the two fields
are equal exactly when those two readings coincide, which the code does not
enforce. -/
theorem blog_post_create_timestamps
    (db : Store BlogPostBase) (q : BlogPostCreate) (g t1 t2 : Nat)
    (hnew : (dbValues db).find? (fun r => r.slug == q.slug) = none) :
    (create_blog_post db q g t1 t2).status = 201 ∧
    (create_blog_post db q g t1 t2).body.created_at = t1 ∧
    (create_blog_post db q g t1 t2).body.updated_at = t2 ∧
    dbGet (create_blog_post db q g t1 t2).db g =
      some (create_blog_post db q g t1 t2).body ∧
    ((create_blog_post db q g t1 t2).body.created_at =
        (create_blog_post db q g t1 t2).body.updated_at ↔ t1 = t2) := by
  have hc : create_blog_post db q g t1 t2 =
      ⟨201, ⟨g, q.title, q.slug, q.excerpt, q.content, q.is_published,
        q.author_id, t1, t2⟩,
        dbPut db g ⟨g, q.title, q.slug, q.excerpt, q.content, q.is_published,
          q.author_id, t1, t2⟩⟩ := by
    simp only [create_blog_post, hnew]
  rw [hc]
  exact ⟨rfl, rfl, rfl, dbGet_dbPut_self _ _ _, Iff.rfl⟩

/-- Witness for the amended C6 at equal clock readings. -/
theorem blog_post_create_timestamps_witness :
    (dbValues ([] : Store BlogPostBase)).find?
      (fun r => r.slug == bPayload1.slug) = none ∧
    ((create_blog_post [] bPayload1 1 5 5).status = 201 ∧
    (create_blog_post [] bPayload1 1 5 5).body.created_at = 5 ∧
    (create_blog_post [] bPayload1 1 5 5).body.updated_at = 5 ∧
    dbGet (create_blog_post [] bPayload1 1 5 5).db 1 =
      some (create_blog_post [] bPayload1 1 5 5).body ∧
    ((create_blog_post [] bPayload1 1 5 5).body.created_at =
        (create_blog_post [] bPayload1 1 5 5).body.updated_at ↔ (5 : Nat) = 5)) :=
  ⟨by decide, blog_post_create_timestamps [] bPayload1 1 5 5 (by decide)⟩
